import Mathlib

/-!
Verification development for the hcloud packer builder plugin.

The embedding follows src/builder/hcloud/config.go (the Config structure, its
Prepare method and the getServerIP helper). The build orchestrator (step
pipeline, runner, polling loop) belongs to this repository but its source is
not under src/; those parts are modelled from the spec, and each such
definition says so in its doc comment. Go durations are int64 nanoseconds and
are embedded as Int; external effects of Prepare (environment variables, the
filesystem stat, the interpolated timestamp, the generated UUID, the
communicator sub-config validation) are supplied through an explicit Env
record.
-/

/-! ## Shared build state (multistep.StateBag) -/

/-- Values of the heterogeneous kinds the state bag stores. -/
inductive GoValue
  | vString (s : String)
  | vInt (n : Int)
  | vBool (b : Bool)
deriving DecidableEq, Repr

/-- The shared build state: a key/value bag, embedded as an association list
where the most recently set entry for a key wins. -/
abbrev StateBag : Type := List (String × GoValue)

/-- Embeds multistep.StateBag.Get: returns the stored value, or none (Go nil)
when the key is absent. -/
def StateBag.get (b : StateBag) (k : String) : Option GoValue :=
  match List.find? (fun p => p.1 = k) b with
  | some p => some p.2
  | none => none

/-- Embeds multistep.StateBag.Put: inserts or replaces the entry for a key. -/
def StateBag.set (b : StateBag) (k : String) (v : GoValue) : StateBag :=
  (k, v) :: b

/-- The state key under which the server IP is stored. The constant
declaration itself is not under src/; only the key's role matters here. -/
def StateServerIP : String := "server_ip"

/-- Embeds getServerIP from src/builder/hcloud/config.go lines 168-170:
`return state.Get(StateServerIP).(string), nil`. The unchecked Go type
assertion panics when Get returns nil (key absent) or a non-string value; the
panic is embedded as none. A non-panicking call returns the pair of the
string and the error result, which the source fixes to nil. -/
def getServerIP (state : StateBag) : Option (String × Option String) :=
  match state.get StateServerIP with
  | some (GoValue.vString s) => some (s, none)
  | _ => none

/-! ## Config and Prepare (src/builder/hcloud/config.go) -/

/-- Embeds the imageFilter structure. -/
structure ImageFilter where
  withSelector : List String
  mostRecent : Bool
deriving DecidableEq, Repr

/-- Embeds the Config structure (the mapstructure fields; the embedded
PackerConfig/communicator sub-configs and the interpolate context are external
SDK types and are not part of the validation logic embedded here, apart from
the communicator error list carried by Env). Durations are int64 nanoseconds. -/
structure Config where
  hcloudToken : String
  endpoint : String
  pollInterval : Int
  serverName : String
  location : String
  serverType : String
  serverLabels : List (String × String)
  upgradeServerType : String
  image : String
  imageFilter : Option ImageFilter
  snapshotName : String
  snapshotLabels : List (String × String)
  userData : String
  userDataFile : String
  sshKeys : List String
  networks : List Int
  publicIPv4 : String
  publicIPv4Disabled : Bool
  publicIPv6 : String
  publicIPv6Disabled : Bool
  firewalls : List String
  volumes : List String
  rescueMode : String
  keepServer : Bool
  skipSnapshot : Bool
deriving DecidableEq, Repr

/-- External inputs Prepare consumes: os.Getenv results, the set of paths for
which os.Stat succeeds, the rendered unix timestamp, uuid.TimeOrderedUUID,
and the error messages produced by the communicator sub-config Prepare. -/
structure Env where
  hcloudTokenEnv : String
  hcloudEndpointEnv : String
  existingFiles : List String
  timestamp : Nat
  timeOrderedUUID : String
  commErrors : List String
deriving DecidableEq, Repr

/-- Embeds hcloud.Endpoint, the API default used at config.go line 95. -/
def hcloudDefaultEndpoint : String := "https://api.hetzner.cloud/v1"

/-- Embeds 500 * time.Millisecond (config.go line 99) in nanoseconds. -/
def defaultPollInterval : Int := 500 * 1000000

def tokenMissingMsg : String :=
  "token is missing, make sure to configure your Hetzner Cloud token"

def locationRequiredMsg : String := "location is required"

def serverTypeRequiredMsg : String := "server type is required"

def imageRequiredMsg : String := "image or image_filter is required"

def selectorRequiredMsg : String :=
  "image_filter.with_selector is required when specifying filter"

def imageConflictMsg : String := "only one of image or image_filter can be specified"

def userDataConflictMsg : String :=
  "only one of user_data or user_data_file can be specified"

def userDataFileNotFoundMsg (f : String) : String := "user_data_file not found: " ++ f

/-- Embeds config.go lines 88-90: default the token from HCLOUD_TOKEN. -/
def tokenDefault (c : Config) (env : Env) : Config :=
  if c.hcloudToken = "" then { c with hcloudToken := env.hcloudTokenEnv } else c

/-- Embeds config.go lines 91-97: default the endpoint from HCLOUD_ENDPOINT,
falling back to hcloud.Endpoint. -/
def endpointDefault (c : Config) (env : Env) : Config :=
  if c.endpoint = "" then
    if env.hcloudEndpointEnv ≠ "" then { c with endpoint := env.hcloudEndpointEnv }
    else { c with endpoint := hcloudDefaultEndpoint }
  else c

/-- Embeds config.go lines 98-100: default the poll interval to 500ms. -/
def pollIntervalDefault (c : Config) : Config :=
  if c.pollInterval = 0 then { c with pollInterval := defaultPollInterval } else c

/-- Embeds config.go lines 102-109: default the snapshot name to
packer-{{timestamp}}. -/
def snapshotNameDefault (c : Config) (env : Env) : Config :=
  if c.snapshotName = "" then { c with snapshotName := "packer-" ++ toString env.timestamp }
  else c

/-- Embeds config.go lines 111-114: default the server name to
packer-<time-ordered uuid>. -/
def serverNameDefault (c : Config) (env : Env) : Config :=
  if c.serverName = "" then { c with serverName := "packer-" ++ env.timeOrderedUUID }
  else c

/-- Embeds the defaulting block of Config.Prepare (config.go lines 87-114),
applying the five defaulting steps in source order. -/
def applyDefaults (c : Config) (env : Env) : Config :=
  serverNameDefault (snapshotNameDefault (pollIntervalDefault (endpointDefault (tokenDefault c env) env)) env) env

/-- Embeds the image checks of Config.Prepare (config.go lines 136-148). -/
def imageErrs (c : Config) : List String :=
  (if c.image = "" ∧ c.imageFilter = none then [imageRequiredMsg] else [])
    ++ match c.imageFilter with
       | some f =>
         if f.withSelector = [] then [selectorRequiredMsg]
         else if c.image ≠ "" then [imageConflictMsg]
         else []
       | none => []

/-- Embeds the user-data checks of Config.Prepare (config.go lines 150-158);
os.Stat succeeds exactly on env.existingFiles. -/
def userDataErrs (c : Config) (env : Env) : List String :=
  if c.userData ≠ "" ∧ c.userDataFile ≠ "" then [userDataConflictMsg]
  else if c.userDataFile ≠ "" ∧ c.userDataFile ∉ env.existingFiles then
    [userDataFileNotFoundMsg c.userDataFile]
  else []

/-- Embeds the MultiError accumulation of Config.Prepare (config.go lines
116-158), in source order: communicator errors, then token, location, server
type, image and user-data checks. -/
def validationErrs (c : Config) (env : Env) : List String :=
  env.commErrors
    ++ (if c.hcloudToken = "" then [tokenMissingMsg] else [])
    ++ (if c.location = "" then [locationRequiredMsg] else [])
    ++ (if c.serverType = "" then [serverTypeRequiredMsg] else [])
    ++ imageErrs c
    ++ userDataErrs c env

/-- The observable outcome of Config.Prepare: the mutated config, the returned
warnings slice (the source returns nil on every path), the returned error
(none embeds a nil error, some the MultiError's message list), and the
arguments of the LogSecretFilter.Set calls made. -/
structure PrepareResult where
  config : Config
  warnings : Option (List String)
  err : Option (List String)
  logSecrets : List String
deriving DecidableEq, Repr

/-- Embeds Config.Prepare (config.go lines 71-166) after decoding: apply the
defaults, collect the validation errors, return them if any (warnings nil);
otherwise register the resolved token with the log secret filter and return
nil, nil. -/
def Config.prepare (c : Config) (env : Env) : PrepareResult :=
  let c' := applyDefaults c env
  let errs := validationErrs c' env
  if errs.isEmpty then
    { config := c', warnings := none, err := none, logSecrets := [c'.hcloudToken] }
  else
    { config := c', warnings := none, err := some errs, logSecrets := [] }

/-! ## Pipeline Runner (modelled from the spec) -/

/-- Modelled from the spec: the result a Step's run returns (§4.2); the
runner/step sources of this repository are not under src/. -/
inductive StepAction
  | Continue
  | Halt
deriving DecidableEq, Repr

/-- Modelled from the spec: a Step's run/cleanup contract (§4.2). -/
structure PipelineStep (σ : Type) where
  run : σ → σ × StepAction
  cleanup : σ → σ

/-- Observable runner events: run or cleanup of the step at a given position. -/
inductive RunnerEvent
  | runStep (i : Nat)
  | cleanupStep (i : Nat)
deriving DecidableEq, Repr

/-- Modelled from the spec: the Runner's forward pass (§4.4), starting at
position i. Returns the final state, the positions whose run executed in
execution order, and the halting position if a Step returned Halt. -/
def runnerForward {σ : Type} (i : Nat) (s : σ) : List (PipelineStep σ) → σ × List Nat × Option Nat
  | [] => (s, [], none)
  | st :: rest =>
    match (st.run s).2 with
    | StepAction.Halt => ((st.run s).1, [i], some i)
    | StepAction.Continue =>
      let r := runnerForward (i + 1) (st.run s).1 rest
      (r.1, i :: r.2.1, r.2.2)

/-- Modelled from the spec: the reverse cleanup pass, applying each executed
Step's cleanup in the given order. -/
def runnerCleanup {σ : Type} (steps : List (PipelineStep σ)) (order : List Nat) (s : σ) : σ :=
  List.foldl
    (fun acc i =>
      match steps.get? i with
      | some st => st.cleanup acc
      | none => acc)
    s order

/-- Modelled from the spec: the Runner (§4.4) — run Steps in order until one
halts or the list ends, then invoke cleanup for every Step whose run executed,
in reverse execution order. Returns the event trace and the halting position. -/
def runnerTrace {σ : Type} (steps : List (PipelineStep σ)) (s : σ) : List RunnerEvent × Option Nat :=
  let r := runnerForward 0 s steps
  (r.2.1.map RunnerEvent.runStep ++ r.2.1.reverse.map RunnerEvent.cleanupStep, r.2.2)

/-! ## Polling algorithm (modelled from the spec) -/

/-- Modelled from the spec: provider-reported status of an asynchronous
action (§4.3, §6); anything that is not succeeded/failed is in-progress. -/
inductive ActionStatus
  | inProgress
  | succeeded
  | failed
deriving DecidableEq, Repr

/-- Modelled from the spec: how a polling Step ends (§4.3, §7). -/
inductive PollOutcome
  | success
  | actionFailedError
  | pollTimeoutError
deriving DecidableEq, Repr

/-- Modelled from the spec: one polling loop (§4.3), fuelled. status gives the
provider's answer to the i-th query; elapsed is the time already spent. A
terminal answer returns at the current elapsed time; otherwise, once the
deadline has been reached the loop halts with PollTimeoutError exactly at the
deadline, else it waits one interval (never past the deadline, which fires
mid-wait) and queries again. The fuel only bounds recursion; pollAction below
supplies enough for the deadline to be reached first. -/
def pollGo (status : Nat → ActionStatus) (interval deadline : Nat) :
    Nat → Nat → Nat → PollOutcome × Nat
  | 0, _, elapsed => (PollOutcome.pollTimeoutError, elapsed)
  | fuel + 1, i, elapsed =>
    match status i with
    | ActionStatus.succeeded => (PollOutcome.success, elapsed)
    | ActionStatus.failed => (PollOutcome.actionFailedError, elapsed)
    | ActionStatus.inProgress =>
      if deadline ≤ elapsed then (PollOutcome.pollTimeoutError, deadline)
      else pollGo status interval deadline fuel (i + 1) (min (elapsed + interval) deadline)

/-- Modelled from the spec: poll an action to completion or deadline (§4.3),
returning the outcome and the total time spent. -/
def pollAction (status : Nat → ActionStatus) (interval deadline : Nat) : PollOutcome × Nat :=
  pollGo status interval deadline (deadline / interval + 2) 0 0

/-- A finite response sequence: n in-progress answers followed by the given
terminal status forever. -/
def finiteStatuses (n : Nat) (terminal : ActionStatus) : Nat → ActionStatus :=
  fun i => if i < n then ActionStatus.inProgress else terminal

/-! ## Build orchestrator (modelled from the spec) -/

/-- Modelled from the spec: the canonical step sequence's step kinds (§4.2). -/
inductive StepKind
  | generateOrImportKeypair
  | resolveImage
  | createServer
  | pollUntilRunning
  | optionalRescueBoot
  | waitForConnectivity
  | powerOffServer
  | createSnapshot
deriving DecidableEq, Repr

/-- Modelled from the spec: the Build Orchestrator assembling the step
sequence from configuration (§2, §4.2): the rescue-boot step only when a
rescue mode was requested, and the power-off and snapshot steps only when
snapshot creation was not skipped. The builder source is not under src/. -/
def buildSteps (c : Config) : List StepKind :=
  [StepKind.generateOrImportKeypair, StepKind.resolveImage, StepKind.createServer,
   StepKind.pollUntilRunning]
    ++ (if c.rescueMode ≠ "" then [StepKind.optionalRescueBoot] else [])
    ++ [StepKind.waitForConnectivity]
    ++ (if c.skipSnapshot then [] else [StepKind.powerOffServer, StepKind.createSnapshot])

/-- Modelled from the spec: the poll interval a polling Step uses — the three
polling Steps (§4.3) all read the single configured interval; the other steps
do not poll. -/
def stepPollInterval (c : Config) (k : StepKind) : Option Int :=
  match k with
  | StepKind.pollUntilRunning => some c.pollInterval
  | StepKind.powerOffServer => some c.pollInterval
  | StepKind.createSnapshot => some c.pollInterval
  | _ => none

/-- The state key under which the resulting snapshot identifier is stored.
The constant declaration itself is not under src/. -/
def StateSnapshotID : String := "snapshot_id"

/-- Modelled from the spec: each Step's write to the shared build state,
restricted to the snapshot-identifier key the artifact extraction reads —
per §4.2 (step 9) CreateSnapshot is the sole Step that stores the Resulting
Image identifier, so every other step kind leaves that key untouched. -/
def stepWrites (c : Config) (k : StepKind) (b : StateBag) : StateBag :=
  match k with
  | StepKind.createSnapshot => b.set StateSnapshotID (GoValue.vString c.snapshotName)
  | _ => b

/-- Modelled from the spec: the shared build state after a successful run of
every assembled step (§2 control flow). -/
def happyPathFinalState (c : Config) : StateBag :=
  List.foldl (fun b k => stepWrites c k b) [] (buildSteps c)

/-- Modelled from the spec: the image identifier of the output artifact (§6),
extracted from the shared build state; absent means an empty identifier. -/
def artifactImageID (c : Config) : String :=
  match (happyPathFinalState c).get StateSnapshotID with
  | some (GoValue.vString s) => s
  | _ => ""

/-! ## Sample inputs used by the witness theorems -/

/-- Maps a terminal action status to the polling Step's outcome (§4.3): the
Step proceeds on succeeded and halts with ActionFailedError on failed; the
in-progress case never ends a poll and is mapped arbitrarily. -/
def terminalOutcome : ActionStatus → PollOutcome
  | ActionStatus.succeeded => PollOutcome.success
  | ActionStatus.failed => PollOutcome.actionFailedError
  | ActionStatus.inProgress => PollOutcome.success

/-- A configuration that passes every Prepare check. -/
def cValid : Config :=
  { hcloudToken := "secret-token"
    endpoint := ""
    pollInterval := 0
    serverName := ""
    location := "fsn1"
    serverType := "cx11"
    serverLabels := []
    upgradeServerType := ""
    image := "ubuntu-22.04"
    imageFilter := none
    snapshotName := ""
    snapshotLabels := []
    userData := ""
    userDataFile := ""
    sshKeys := []
    networks := []
    publicIPv4 := ""
    publicIPv4Disabled := false
    publicIPv6 := ""
    publicIPv6Disabled := false
    firewalls := []
    volumes := []
    rescueMode := ""
    keepServer := false
    skipSnapshot := false }

/-- An environment with no variables set, no existing files and a clean
communicator sub-config. -/
def envEmpty : Env :=
  { hcloudTokenEnv := ""
    hcloudEndpointEnv := ""
    existingFiles := []
    timestamp := 0
    timeOrderedUUID := "0af1-uuid"
    commErrors := [] }

/-- cValid with no image selection at all. -/
def cNoImage : Config := { cValid with image := "", imageFilter := none }

/-- cValid with both user_data and user_data_file set. -/
def cBothUserData : Config := { cValid with userData := "a", userDataFile := "b" }

/-- A configuration with token, location and server type all missing. -/
def cAllMissing : Config := { cValid with hcloudToken := "", location := "", serverType := "" }

/-- cValid with the skip-snapshot flag set. -/
def cSkipSnapshot : Config := { cValid with skipSnapshot := true }

/-- A three-step pipeline whose second step halts, used to witness the
runner's halt/cleanup protocol. -/
def demoSteps : List (PipelineStep Nat) :=
  [{ run := fun s => (s + 1, StepAction.Continue), cleanup := fun s => s },
   { run := fun s => (s, StepAction.Halt), cleanup := fun s => s + 10 },
   { run := fun s => (s + 100, StepAction.Continue), cleanup := fun s => s }]

/-! ## Helper lemmas -/

theorem tokenDefault_endpoint (c : Config) (env : Env) : (tokenDefault c env).endpoint = c.endpoint := by
  unfold tokenDefault
  repeat' split
  all_goals rfl

theorem tokenDefault_pollInterval (c : Config) (env : Env) : (tokenDefault c env).pollInterval = c.pollInterval := by
  unfold tokenDefault
  repeat' split
  all_goals rfl

theorem tokenDefault_serverName (c : Config) (env : Env) : (tokenDefault c env).serverName = c.serverName := by
  unfold tokenDefault
  repeat' split
  all_goals rfl

theorem tokenDefault_snapshotName (c : Config) (env : Env) : (tokenDefault c env).snapshotName = c.snapshotName := by
  unfold tokenDefault
  repeat' split
  all_goals rfl

theorem tokenDefault_location (c : Config) (env : Env) : (tokenDefault c env).location = c.location := by
  unfold tokenDefault
  repeat' split
  all_goals rfl

theorem tokenDefault_serverType (c : Config) (env : Env) : (tokenDefault c env).serverType = c.serverType := by
  unfold tokenDefault
  repeat' split
  all_goals rfl

theorem tokenDefault_image (c : Config) (env : Env) : (tokenDefault c env).image = c.image := by
  unfold tokenDefault
  repeat' split
  all_goals rfl

theorem tokenDefault_imageFilter (c : Config) (env : Env) : (tokenDefault c env).imageFilter = c.imageFilter := by
  unfold tokenDefault
  repeat' split
  all_goals rfl

theorem tokenDefault_userData (c : Config) (env : Env) : (tokenDefault c env).userData = c.userData := by
  unfold tokenDefault
  repeat' split
  all_goals rfl

theorem tokenDefault_userDataFile (c : Config) (env : Env) : (tokenDefault c env).userDataFile = c.userDataFile := by
  unfold tokenDefault
  repeat' split
  all_goals rfl

theorem endpointDefault_hcloudToken (c : Config) (env : Env) : (endpointDefault c env).hcloudToken = c.hcloudToken := by
  unfold endpointDefault
  repeat' split
  all_goals rfl

theorem endpointDefault_pollInterval (c : Config) (env : Env) : (endpointDefault c env).pollInterval = c.pollInterval := by
  unfold endpointDefault
  repeat' split
  all_goals rfl

theorem endpointDefault_serverName (c : Config) (env : Env) : (endpointDefault c env).serverName = c.serverName := by
  unfold endpointDefault
  repeat' split
  all_goals rfl

theorem endpointDefault_snapshotName (c : Config) (env : Env) : (endpointDefault c env).snapshotName = c.snapshotName := by
  unfold endpointDefault
  repeat' split
  all_goals rfl

theorem endpointDefault_location (c : Config) (env : Env) : (endpointDefault c env).location = c.location := by
  unfold endpointDefault
  repeat' split
  all_goals rfl

theorem endpointDefault_serverType (c : Config) (env : Env) : (endpointDefault c env).serverType = c.serverType := by
  unfold endpointDefault
  repeat' split
  all_goals rfl

theorem endpointDefault_image (c : Config) (env : Env) : (endpointDefault c env).image = c.image := by
  unfold endpointDefault
  repeat' split
  all_goals rfl

theorem endpointDefault_imageFilter (c : Config) (env : Env) : (endpointDefault c env).imageFilter = c.imageFilter := by
  unfold endpointDefault
  repeat' split
  all_goals rfl

theorem endpointDefault_userData (c : Config) (env : Env) : (endpointDefault c env).userData = c.userData := by
  unfold endpointDefault
  repeat' split
  all_goals rfl

theorem endpointDefault_userDataFile (c : Config) (env : Env) : (endpointDefault c env).userDataFile = c.userDataFile := by
  unfold endpointDefault
  repeat' split
  all_goals rfl

theorem pollIntervalDefault_hcloudToken (c : Config) : (pollIntervalDefault c).hcloudToken = c.hcloudToken := by
  unfold pollIntervalDefault
  repeat' split
  all_goals rfl

theorem pollIntervalDefault_endpoint (c : Config) : (pollIntervalDefault c).endpoint = c.endpoint := by
  unfold pollIntervalDefault
  repeat' split
  all_goals rfl

theorem pollIntervalDefault_serverName (c : Config) : (pollIntervalDefault c).serverName = c.serverName := by
  unfold pollIntervalDefault
  repeat' split
  all_goals rfl

theorem pollIntervalDefault_snapshotName (c : Config) : (pollIntervalDefault c).snapshotName = c.snapshotName := by
  unfold pollIntervalDefault
  repeat' split
  all_goals rfl

theorem pollIntervalDefault_location (c : Config) : (pollIntervalDefault c).location = c.location := by
  unfold pollIntervalDefault
  repeat' split
  all_goals rfl

theorem pollIntervalDefault_serverType (c : Config) : (pollIntervalDefault c).serverType = c.serverType := by
  unfold pollIntervalDefault
  repeat' split
  all_goals rfl

theorem pollIntervalDefault_image (c : Config) : (pollIntervalDefault c).image = c.image := by
  unfold pollIntervalDefault
  repeat' split
  all_goals rfl

theorem pollIntervalDefault_imageFilter (c : Config) : (pollIntervalDefault c).imageFilter = c.imageFilter := by
  unfold pollIntervalDefault
  repeat' split
  all_goals rfl

theorem pollIntervalDefault_userData (c : Config) : (pollIntervalDefault c).userData = c.userData := by
  unfold pollIntervalDefault
  repeat' split
  all_goals rfl

theorem pollIntervalDefault_userDataFile (c : Config) : (pollIntervalDefault c).userDataFile = c.userDataFile := by
  unfold pollIntervalDefault
  repeat' split
  all_goals rfl

theorem snapshotNameDefault_hcloudToken (c : Config) (env : Env) : (snapshotNameDefault c env).hcloudToken = c.hcloudToken := by
  unfold snapshotNameDefault
  repeat' split
  all_goals rfl

theorem snapshotNameDefault_endpoint (c : Config) (env : Env) : (snapshotNameDefault c env).endpoint = c.endpoint := by
  unfold snapshotNameDefault
  repeat' split
  all_goals rfl

theorem snapshotNameDefault_pollInterval (c : Config) (env : Env) : (snapshotNameDefault c env).pollInterval = c.pollInterval := by
  unfold snapshotNameDefault
  repeat' split
  all_goals rfl

theorem snapshotNameDefault_serverName (c : Config) (env : Env) : (snapshotNameDefault c env).serverName = c.serverName := by
  unfold snapshotNameDefault
  repeat' split
  all_goals rfl

theorem snapshotNameDefault_location (c : Config) (env : Env) : (snapshotNameDefault c env).location = c.location := by
  unfold snapshotNameDefault
  repeat' split
  all_goals rfl

theorem snapshotNameDefault_serverType (c : Config) (env : Env) : (snapshotNameDefault c env).serverType = c.serverType := by
  unfold snapshotNameDefault
  repeat' split
  all_goals rfl

theorem snapshotNameDefault_image (c : Config) (env : Env) : (snapshotNameDefault c env).image = c.image := by
  unfold snapshotNameDefault
  repeat' split
  all_goals rfl

theorem snapshotNameDefault_imageFilter (c : Config) (env : Env) : (snapshotNameDefault c env).imageFilter = c.imageFilter := by
  unfold snapshotNameDefault
  repeat' split
  all_goals rfl

theorem snapshotNameDefault_userData (c : Config) (env : Env) : (snapshotNameDefault c env).userData = c.userData := by
  unfold snapshotNameDefault
  repeat' split
  all_goals rfl

theorem snapshotNameDefault_userDataFile (c : Config) (env : Env) : (snapshotNameDefault c env).userDataFile = c.userDataFile := by
  unfold snapshotNameDefault
  repeat' split
  all_goals rfl

theorem serverNameDefault_hcloudToken (c : Config) (env : Env) : (serverNameDefault c env).hcloudToken = c.hcloudToken := by
  unfold serverNameDefault
  repeat' split
  all_goals rfl

theorem serverNameDefault_endpoint (c : Config) (env : Env) : (serverNameDefault c env).endpoint = c.endpoint := by
  unfold serverNameDefault
  repeat' split
  all_goals rfl

theorem serverNameDefault_pollInterval (c : Config) (env : Env) : (serverNameDefault c env).pollInterval = c.pollInterval := by
  unfold serverNameDefault
  repeat' split
  all_goals rfl

theorem serverNameDefault_snapshotName (c : Config) (env : Env) : (serverNameDefault c env).snapshotName = c.snapshotName := by
  unfold serverNameDefault
  repeat' split
  all_goals rfl

theorem serverNameDefault_location (c : Config) (env : Env) : (serverNameDefault c env).location = c.location := by
  unfold serverNameDefault
  repeat' split
  all_goals rfl

theorem serverNameDefault_serverType (c : Config) (env : Env) : (serverNameDefault c env).serverType = c.serverType := by
  unfold serverNameDefault
  repeat' split
  all_goals rfl

theorem serverNameDefault_image (c : Config) (env : Env) : (serverNameDefault c env).image = c.image := by
  unfold serverNameDefault
  repeat' split
  all_goals rfl

theorem serverNameDefault_imageFilter (c : Config) (env : Env) : (serverNameDefault c env).imageFilter = c.imageFilter := by
  unfold serverNameDefault
  repeat' split
  all_goals rfl

theorem serverNameDefault_userData (c : Config) (env : Env) : (serverNameDefault c env).userData = c.userData := by
  unfold serverNameDefault
  repeat' split
  all_goals rfl

theorem serverNameDefault_userDataFile (c : Config) (env : Env) : (serverNameDefault c env).userDataFile = c.userDataFile := by
  unfold serverNameDefault
  repeat' split
  all_goals rfl

theorem tokenDefault_hcloudToken (c : Config) (env : Env) :
    (tokenDefault c env).hcloudToken =
      if c.hcloudToken = "" then env.hcloudTokenEnv else c.hcloudToken := by
  unfold tokenDefault
  split
  all_goals simp_all

theorem endpointDefault_endpoint (c : Config) (env : Env) :
    (endpointDefault c env).endpoint =
      if c.endpoint = "" then
        if env.hcloudEndpointEnv ≠ "" then env.hcloudEndpointEnv else hcloudDefaultEndpoint
      else c.endpoint := by
  unfold endpointDefault
  repeat' split
  all_goals simp_all

theorem pollIntervalDefault_pollInterval (c : Config) :
    (pollIntervalDefault c).pollInterval =
      if c.pollInterval = 0 then defaultPollInterval else c.pollInterval := by
  unfold pollIntervalDefault
  split
  all_goals simp_all

theorem snapshotNameDefault_snapshotName (c : Config) (env : Env) :
    (snapshotNameDefault c env).snapshotName =
      if c.snapshotName = "" then "packer-" ++ toString env.timestamp else c.snapshotName := by
  unfold snapshotNameDefault
  split
  all_goals simp_all

theorem serverNameDefault_serverName (c : Config) (env : Env) :
    (serverNameDefault c env).serverName =
      if c.serverName = "" then "packer-" ++ env.timeOrderedUUID else c.serverName := by
  unfold serverNameDefault
  split
  all_goals simp_all

theorem applyDefaults_location (c : Config) (env : Env) :
    (applyDefaults c env).location = c.location := by
  unfold applyDefaults
  rw [serverNameDefault_location, snapshotNameDefault_location, pollIntervalDefault_location, endpointDefault_location, tokenDefault_location]

theorem applyDefaults_serverType (c : Config) (env : Env) :
    (applyDefaults c env).serverType = c.serverType := by
  unfold applyDefaults
  rw [serverNameDefault_serverType, snapshotNameDefault_serverType, pollIntervalDefault_serverType, endpointDefault_serverType, tokenDefault_serverType]

theorem applyDefaults_image (c : Config) (env : Env) :
    (applyDefaults c env).image = c.image := by
  unfold applyDefaults
  rw [serverNameDefault_image, snapshotNameDefault_image, pollIntervalDefault_image, endpointDefault_image, tokenDefault_image]

theorem applyDefaults_imageFilter (c : Config) (env : Env) :
    (applyDefaults c env).imageFilter = c.imageFilter := by
  unfold applyDefaults
  rw [serverNameDefault_imageFilter, snapshotNameDefault_imageFilter, pollIntervalDefault_imageFilter, endpointDefault_imageFilter, tokenDefault_imageFilter]

theorem applyDefaults_userData (c : Config) (env : Env) :
    (applyDefaults c env).userData = c.userData := by
  unfold applyDefaults
  rw [serverNameDefault_userData, snapshotNameDefault_userData, pollIntervalDefault_userData, endpointDefault_userData, tokenDefault_userData]

theorem applyDefaults_userDataFile (c : Config) (env : Env) :
    (applyDefaults c env).userDataFile = c.userDataFile := by
  unfold applyDefaults
  rw [serverNameDefault_userDataFile, snapshotNameDefault_userDataFile, pollIntervalDefault_userDataFile, endpointDefault_userDataFile, tokenDefault_userDataFile]

theorem applyDefaults_hcloudToken (c : Config) (env : Env) :
    (applyDefaults c env).hcloudToken =
      if c.hcloudToken = "" then env.hcloudTokenEnv else c.hcloudToken := by
  unfold applyDefaults
  rw [serverNameDefault_hcloudToken, snapshotNameDefault_hcloudToken,
    pollIntervalDefault_hcloudToken, endpointDefault_hcloudToken, tokenDefault_hcloudToken]

theorem applyDefaults_pollInterval (c : Config) (env : Env) :
    (applyDefaults c env).pollInterval =
      if c.pollInterval = 0 then defaultPollInterval else c.pollInterval := by
  unfold applyDefaults
  rw [serverNameDefault_pollInterval, snapshotNameDefault_pollInterval,
    pollIntervalDefault_pollInterval, endpointDefault_pollInterval, tokenDefault_pollInterval]

theorem prepare_config_eq (c : Config) (env : Env) :
    (c.prepare env).config = applyDefaults c env := by
  unfold Config.prepare
  simp only []
  split
  all_goals rfl

theorem prepare_warnings_none (c : Config) (env : Env) : (c.prepare env).warnings = none := by
  unfold Config.prepare
  simp only []
  split
  all_goals rfl

theorem imageErrs_applyDefaults (c : Config) (env : Env) :
    imageErrs (applyDefaults c env) = imageErrs c := by
  unfold imageErrs
  rw [applyDefaults_image, applyDefaults_imageFilter]

theorem userDataErrs_applyDefaults (c : Config) (env : Env) :
    userDataErrs (applyDefaults c env) env = userDataErrs c env := by
  unfold userDataErrs
  rw [applyDefaults_userData, applyDefaults_userDataFile]

theorem prepare_err_of_errs (c : Config) (env : Env)
    (h : validationErrs (applyDefaults c env) env ≠ []) :
    (c.prepare env).err = some (validationErrs (applyDefaults c env) env) := by
  unfold Config.prepare
  simp only [List.isEmpty_iff]
  rw [if_neg h]

theorem validationErrs_ne_nil_of_image (c : Config) (env : Env) (h : imageErrs c ≠ []) :
    validationErrs c env ≠ [] := by
  unfold validationErrs
  simp only [ne_eq, List.append_eq_nil, not_and]
  intro hw
  simp_all

theorem validationErrs_ne_nil_of_userData (c : Config) (env : Env) (h : userDataErrs c env ≠ []) :
    validationErrs c env ≠ [] := by
  unfold validationErrs
  simp only [ne_eq, List.append_eq_nil, not_and]
  intro hw
  simp_all

/-! ## Claim theorems -/

/-- C2 counterexample: on a build state without the server-IP key, getServerIP
does not fail fast with a MissingStateError — the unchecked type assertion
panics (embedded as none), so the function crashes instead of returning an
error. -/
theorem getServerIP_absent_crashes : getServerIP ([] : StateBag) = none := rfl

/-- C2 (amended): when the server-IP key is absent getServerIP panics on the
failed type assertion (it never produces a MissingStateError — its error
result is nil on every non-panicking path); when the key holds a string it
returns that string and no error. -/
theorem getServerIP_spec (b : StateBag) :
    (b.get StateServerIP = none → getServerIP b = none) ∧
    (∀ s, b.get StateServerIP = some (GoValue.vString s) → getServerIP b = some (s, none)) := by
  constructor
  · intro h
    unfold getServerIP
    rw [h]
  · intro s h
    unfold getServerIP
    rw [h]

/-- C2 witness: the amended behaviour at the empty bag and at a bag holding a
concrete address. -/
theorem getServerIP_spec_witness :
    getServerIP ([] : StateBag) = none ∧
    getServerIP [(StateServerIP, GoValue.vString "116.203.0.4")] = some ("116.203.0.4", none) :=
  ⟨(getServerIP_spec []).1 rfl,
   (getServerIP_spec [(StateServerIP, GoValue.vString "116.203.0.4")]).2 "116.203.0.4" (by
      simp [StateBag.get])⟩

/-- C5: Prepare rejects a missing image selection (image empty, no filter), a
filter without with_selector entries, and a direct image combined with a
selector filter — each with a validation error and nil warnings — while a
configuration with exactly one valid image selection passes the image checks. -/
theorem prepare_image_validation (c : Config) (env : Env) :
    (c.image = "" ∧ c.imageFilter = none →
      (c.prepare env).err ≠ none ∧ (c.prepare env).warnings = none) ∧
    (∀ f, c.imageFilter = some f → f.withSelector = [] →
      (c.prepare env).err ≠ none ∧ (c.prepare env).warnings = none) ∧
    (∀ f, c.imageFilter = some f → f.withSelector ≠ [] → c.image ≠ "" →
      (c.prepare env).err ≠ none ∧ (c.prepare env).warnings = none) ∧
    ((c.image ≠ "" ∧ c.imageFilter = none) ∨
        (c.image = "" ∧ ∃ f, c.imageFilter = some f ∧ f.withSelector ≠ []) →
      imageErrs c = []) := by
  have key : imageErrs c ≠ [] → (c.prepare env).err ≠ none := by
    intro h
    have h2 : imageErrs (applyDefaults c env) ≠ [] := by
      rw [imageErrs_applyDefaults]
      exact h
    have h3 := validationErrs_ne_nil_of_image (applyDefaults c env) env h2
    rw [prepare_err_of_errs c env h3]
    simp
  refine ⟨?_, ?_, ?_, ?_⟩
  · rintro ⟨h1, h2⟩
    exact ⟨key (by simp [imageErrs, h1, h2]), prepare_warnings_none c env⟩
  · intro f hf hsel
    exact ⟨key (by simp [imageErrs, hf, hsel]), prepare_warnings_none c env⟩
  · intro f hf hsel him
    exact ⟨key (by simp [imageErrs, hf, hsel, him]), prepare_warnings_none c env⟩
  · rintro (⟨h1, h2⟩ | ⟨h1, f, hf, hsel⟩)
    · simp [imageErrs, h1, h2]
    · simp [imageErrs, h1, hf, hsel]

/-- C5 witness: a configuration with no image selection is rejected with an
error and nil warnings. -/
theorem prepare_image_validation_witness :
    (cNoImage.image = "" ∧ cNoImage.imageFilter = none) ∧
    (cNoImage.prepare envEmpty).err ≠ none ∧ (cNoImage.prepare envEmpty).warnings = none :=
  ⟨⟨rfl, rfl⟩, (prepare_image_validation cNoImage envEmpty).1 ⟨rfl, rfl⟩⟩

/-- C6: Prepare rejects user_data together with user_data_file, and a
user_data_file that does not exist, each with a validation error and nil
warnings; with at most one of the two (and an existing file when one is
named) the user-data checks pass. -/
theorem prepare_userData_validation (c : Config) (env : Env) :
    (c.userData ≠ "" ∧ c.userDataFile ≠ "" →
      (c.prepare env).err ≠ none ∧ (c.prepare env).warnings = none) ∧
    (c.userData = "" ∧ c.userDataFile ≠ "" ∧ c.userDataFile ∉ env.existingFiles →
      (c.prepare env).err ≠ none ∧ (c.prepare env).warnings = none) ∧
    (¬(c.userData ≠ "" ∧ c.userDataFile ≠ "") →
      (c.userDataFile ≠ "" → c.userDataFile ∈ env.existingFiles) →
      userDataErrs c env = []) := by
  have key : userDataErrs c env ≠ [] → (c.prepare env).err ≠ none := by
    intro h
    have h2 : userDataErrs (applyDefaults c env) env ≠ [] := by
      rw [userDataErrs_applyDefaults]
      exact h
    have h3 := validationErrs_ne_nil_of_userData (applyDefaults c env) env h2
    rw [prepare_err_of_errs c env h3]
    simp
  refine ⟨?_, ?_, ?_⟩
  · rintro ⟨h1, h2⟩
    exact ⟨key (by simp [userDataErrs, h1, h2]), prepare_warnings_none c env⟩
  · rintro ⟨h1, h2, h3⟩
    exact ⟨key (by simp [userDataErrs, h1, h2, h3]), prepare_warnings_none c env⟩
  · intro hn hex
    by_cases hfile : c.userDataFile = ""
    · simp [userDataErrs, hn, hfile]
    · have hud : c.userData = "" := by
        by_contra hud
        exact hn ⟨hud, hfile⟩
      simp [userDataErrs, hud, hex hfile]

/-- C6 witness: a configuration with both user_data and user_data_file is
rejected with an error and nil warnings. -/
theorem prepare_userData_validation_witness :
    (cBothUserData.userData ≠ "" ∧ cBothUserData.userDataFile ≠ "") ∧
    (cBothUserData.prepare envEmpty).err ≠ none ∧
    (cBothUserData.prepare envEmpty).warnings = none :=
  ⟨⟨by decide, by decide⟩,
   (prepare_userData_validation cBothUserData envEmpty).1 ⟨by decide, by decide⟩⟩

/-- C8: with the token missing (and no HCLOUD_TOKEN fallback), the location
missing and the server type missing all at once, Prepare returns the single
aggregated error list — it contains the message of each failed check, none is
dropped — and nil warnings. -/
theorem prepare_aggregates_errors (c : Config) (env : Env)
    (htok : c.hcloudToken = "") (henv : env.hcloudTokenEnv = "")
    (hloc : c.location = "") (hst : c.serverType = "") :
    (c.prepare env).err = some (validationErrs (applyDefaults c env) env) ∧
    tokenMissingMsg ∈ validationErrs (applyDefaults c env) env ∧
    locationRequiredMsg ∈ validationErrs (applyDefaults c env) env ∧
    serverTypeRequiredMsg ∈ validationErrs (applyDefaults c env) env ∧
    (c.prepare env).warnings = none := by
  have ht : (applyDefaults c env).hcloudToken = "" := by
    rw [applyDefaults_hcloudToken]
    simp [htok, henv]
  have hl : (applyDefaults c env).location = "" := by
    rw [applyDefaults_location]
    exact hloc
  have hs : (applyDefaults c env).serverType = "" := by
    rw [applyDefaults_serverType]
    exact hst
  have hm1 : tokenMissingMsg ∈ validationErrs (applyDefaults c env) env := by
    unfold validationErrs
    simp [ht]
  have hm2 : locationRequiredMsg ∈ validationErrs (applyDefaults c env) env := by
    unfold validationErrs
    simp [hl]
  have hm3 : serverTypeRequiredMsg ∈ validationErrs (applyDefaults c env) env := by
    unfold validationErrs
    simp [hs]
  have hne : validationErrs (applyDefaults c env) env ≠ [] := by
    intro h0
    rw [h0] at hm1
    simp at hm1
  exact ⟨prepare_err_of_errs c env hne, hm1, hm2, hm3, prepare_warnings_none c env⟩

/-- C8 witness: the all-missing configuration under an empty environment. -/
theorem prepare_aggregates_errors_witness :
    (cAllMissing.prepare envEmpty).err =
      some (validationErrs (applyDefaults cAllMissing envEmpty) envEmpty) ∧
    tokenMissingMsg ∈ validationErrs (applyDefaults cAllMissing envEmpty) envEmpty ∧
    locationRequiredMsg ∈ validationErrs (applyDefaults cAllMissing envEmpty) envEmpty ∧
    serverTypeRequiredMsg ∈ validationErrs (applyDefaults cAllMissing envEmpty) envEmpty ∧
    (cAllMissing.prepare envEmpty).warnings = none :=
  prepare_aggregates_errors cAllMissing envEmpty rfl rfl rfl rfl

theorem packerName_ne_empty (s : String) : "packer-" ++ s ≠ "" := by
  intro h
  have h2 : ("packer-" ++ s).data = "".data := by rw [h]
  rw [String.data_append] at h2
  simp at h2

/-- C9: after every successful Prepare the defaulted fields are populated —
the endpoint, snapshot name and server name are non-empty and the poll
interval is non-zero. -/
theorem prepare_defaults_populated (c : Config) (env : Env)
    (_h : (c.prepare env).err = none) :
    (c.prepare env).config.endpoint ≠ "" ∧
    (c.prepare env).config.pollInterval ≠ 0 ∧
    (c.prepare env).config.snapshotName ≠ "" ∧
    (c.prepare env).config.serverName ≠ "" := by
  rw [prepare_config_eq]
  refine ⟨?_, ?_, ?_, ?_⟩
  · unfold applyDefaults
    rw [serverNameDefault_endpoint, snapshotNameDefault_endpoint, pollIntervalDefault_endpoint,
      endpointDefault_endpoint, tokenDefault_endpoint]
    split
    · split
      · assumption
      · decide
    · assumption
  · rw [applyDefaults_pollInterval]
    split
    · decide
    · assumption
  · unfold applyDefaults
    rw [serverNameDefault_snapshotName, snapshotNameDefault_snapshotName,
      pollIntervalDefault_snapshotName, endpointDefault_snapshotName, tokenDefault_snapshotName]
    split
    · exact packerName_ne_empty _
    · assumption
  · unfold applyDefaults
    rw [serverNameDefault_serverName, snapshotNameDefault_serverName,
      pollIntervalDefault_serverName, endpointDefault_serverName, tokenDefault_serverName]
    split
    · exact packerName_ne_empty _
    · assumption

/-- C9 witness: the valid sample configuration prepares successfully and all
four defaulted fields come out populated. -/
theorem prepare_defaults_populated_witness :
    (cValid.prepare envEmpty).err = none ∧
    ((cValid.prepare envEmpty).config.endpoint ≠ "" ∧
      (cValid.prepare envEmpty).config.pollInterval ≠ 0 ∧
      (cValid.prepare envEmpty).config.snapshotName ≠ "" ∧
      (cValid.prepare envEmpty).config.serverName ≠ "") :=
  ⟨rfl, prepare_defaults_populated cValid envEmpty rfl⟩

/-- C10: Prepare registers the resolved token with the process-wide log
secret filter exactly on success — on a nil error return the registered
secrets are precisely the resolved token, and on an error return nothing is
registered. -/
theorem prepare_registers_token (c : Config) (env : Env) :
    ((c.prepare env).err = none →
      (c.prepare env).logSecrets = [(c.prepare env).config.hcloudToken]) ∧
    ((c.prepare env).err ≠ none → (c.prepare env).logSecrets = []) := by
  unfold Config.prepare
  simp only []
  split
  · exact ⟨fun _ => rfl, fun hc => absurd rfl hc⟩
  · refine ⟨fun hc => ?_, fun _ => rfl⟩
    simp at hc

/-- C10 witness: on the valid sample configuration Prepare succeeds and the
resolved token is the one registered secret. -/
theorem prepare_registers_token_witness :
    (cValid.prepare envEmpty).err = none ∧
    (cValid.prepare envEmpty).logSecrets = [(cValid.prepare envEmpty).config.hcloudToken] :=
  ⟨rfl, (prepare_registers_token cValid envEmpty).1 rfl⟩

/-- C4: when poll_interval is unset (zero), a successful Prepare sets the
poll interval to exactly 500 milliseconds (500000000 nanoseconds), and the
poll interval is a single tunable shared by all polling steps: any two steps
that poll use the same configured value. -/
theorem prepare_pollInterval_default (c : Config) (env : Env) :
    (c.pollInterval = 0 → (c.prepare env).err = none →
      (c.prepare env).config.pollInterval = 500 * 1000000) ∧
    (∀ k k' x y, stepPollInterval ((c.prepare env).config) k = some x →
      stepPollInterval ((c.prepare env).config) k' = some y → x = y) := by
  constructor
  · intro h0 _
    rw [prepare_config_eq, applyDefaults_pollInterval, if_pos h0]
    rfl
  · intro k k' x y hk hk'
    cases k <;> cases k' <;> simp_all [stepPollInterval]

/-- C4 witness: the valid sample configuration leaves poll_interval unset and
Prepare defaults it to 500ms. -/
theorem prepare_pollInterval_default_witness :
    cValid.pollInterval = 0 ∧ (cValid.prepare envEmpty).err = none ∧
    (cValid.prepare envEmpty).config.pollInterval = 500 * 1000000 :=
  ⟨rfl, rfl, (prepare_pollInterval_default cValid envEmpty).1 rfl rfl⟩

theorem runnerForward_halt {σ : Type} (steps : List (PipelineStep σ)) :
    ∀ (i : Nat) (s : σ) (N : Nat),
      (runnerForward i s steps).2.2 = some N →
      (runnerForward i s steps).2.1 = List.range' i (N + 1 - i) ∧ i ≤ N := by
  induction steps with
  | nil =>
    intro i s N h
    simp [runnerForward] at h
  | cons st rest ih =>
    intro i s N h
    simp only [runnerForward] at h ⊢
    cases hrun : (st.run s).2 with
    | Halt =>
      rw [hrun] at h
      simp only [] at h ⊢
      have hiN : i = N := by
        simpa using h
      subst hiN
      refine ⟨?_, Nat.le_refl i⟩
      have h1 : i + 1 - i = 1 := by omega
      rw [h1]
      simp [List.range'_succ]
    | Continue =>
      rw [hrun] at h
      simp only [] at h ⊢
      obtain ⟨hex, hle⟩ := ih (i + 1) (st.run s).1 N h
      refine ⟨?_, by omega⟩
      rw [hex]
      have h1 : N + 1 - i = (N + 1 - (i + 1)) + 1 := by omega
      rw [h1, List.range'_succ]

/-- C1: whenever the Runner halts at Step N, the event trace is exactly the
runs of Steps 0..N in order followed by the cleanups of Steps N..0 in strict
reverse order — every executed Step is cleaned up (including the halting
one), no later Step runs and no later Step is cleaned up. -/
theorem runner_halt_cleanup_reverse {σ : Type} (steps : List (PipelineStep σ)) (s : σ) (N : Nat)
    (h : (runnerTrace steps s).2 = some N) :
    (runnerTrace steps s).1 =
      (List.range (N + 1)).map RunnerEvent.runStep ++
        ((List.range (N + 1)).reverse).map RunnerEvent.cleanupStep := by
  unfold runnerTrace at h ⊢
  simp only [] at h ⊢
  obtain ⟨h1, _⟩ := runnerForward_halt steps 0 s N h
  rw [h1]
  simp [List.range_eq_range']

/-- C1 witness: a three-step pipeline halting at Step 1 runs Steps 0 and 1,
then cleans up 1 and 0, and never touches Step 2. -/
theorem runner_halt_cleanup_reverse_witness :
    (runnerTrace demoSteps 0).2 = some 1 ∧
    (runnerTrace demoSteps 0).1 =
      (List.range 2).map RunnerEvent.runStep ++
        ((List.range 2).reverse).map RunnerEvent.cleanupStep :=
  ⟨rfl, runner_halt_cleanup_reverse demoSteps 0 1 rfl⟩

theorem pollGo_finite (status : Nat → ActionStatus) (term : ActionStatus)
    (interval deadline : Nat) :
    ∀ (n fuel i elapsed : Nat),
      (∀ j, j < n → status (i + j) = ActionStatus.inProgress) →
      status (i + n) = term → term ≠ ActionStatus.inProgress →
      n + 1 ≤ fuel → elapsed + n * interval ≤ deadline → 0 < interval →
      pollGo status interval deadline fuel i elapsed =
        (terminalOutcome term, elapsed + n * interval) := by
  intro n
  induction n with
  | zero =>
    intro fuel i elapsed hpre hterm hnotin hfuel hdl hint
    obtain ⟨f, rfl⟩ : ∃ f, fuel = f + 1 := ⟨fuel - 1, by omega⟩
    have h0 : status i = term := by
      simpa using hterm
    simp only [pollGo, h0]
    cases term with
    | succeeded => simp [terminalOutcome]
    | failed => simp [terminalOutcome]
    | inProgress => exact absurd rfl hnotin
  | succ m ih =>
    intro fuel i elapsed hpre hterm hnotin hfuel hdl hint
    obtain ⟨f, rfl⟩ : ∃ f, fuel = f + 1 := ⟨fuel - 1, by omega⟩
    have h0 : status i = ActionStatus.inProgress := by
      simpa using hpre 0 (by omega)
    have hsm : (m + 1) * interval = m * interval + interval := Nat.succ_mul m interval
    have hdl' : elapsed + (m * interval + interval) ≤ deadline := by
      rw [← hsm]
      exact hdl
    have hlt : ¬ deadline ≤ elapsed := by
      have h1 : 0 < m * interval + interval := by
        omega
      omega
    have hmin : min (elapsed + interval) deadline = elapsed + interval := by
      apply min_eq_left
      omega
    have hpre' : ∀ j, j < m → status (i + 1 + j) = ActionStatus.inProgress := by
      intro j hj
      have h2 := hpre (j + 1) (by omega)
      have h3 : i + (j + 1) = i + 1 + j := by omega
      rw [h3] at h2
      exact h2
    have hterm' : status (i + 1 + m) = term := by
      have h3 : i + (m + 1) = i + 1 + m := by omega
      rw [h3] at hterm
      exact hterm
    have hfuel' : m + 1 ≤ f := by omega
    have hdl2 : elapsed + interval + m * interval ≤ deadline := by omega
    have hrec := ih f (i + 1) (elapsed + interval) hpre' hterm' hnotin hfuel' hdl2 hint
    have earith : elapsed + interval + m * interval = elapsed + (m + 1) * interval := by
      omega
    simp only [pollGo, h0]
    rw [if_neg hlt, hmin, hrec, earith]

theorem pollGo_always_inProgress (interval deadline : Nat) :
    ∀ (fuel i elapsed : Nat), elapsed ≤ deadline → deadline ≤ elapsed + fuel * interval →
      pollGo (fun _ => ActionStatus.inProgress) interval deadline fuel i elapsed =
        (PollOutcome.pollTimeoutError, deadline) := by
  intro fuel
  induction fuel with
  | zero =>
    intro i elapsed h1 h2
    simp only [pollGo]
    have h3 : elapsed = deadline := by omega
    rw [h3]
  | succ f ih =>
    intro i elapsed h1 h2
    have hsm : (f + 1) * interval = f * interval + interval := Nat.succ_mul f interval
    simp only [pollGo]
    by_cases hd : deadline ≤ elapsed
    · rw [if_pos hd]
    · rw [if_neg hd]
      rcases le_or_lt (elapsed + interval) deadline with hle | hgt
      · rw [min_eq_left hle]
        exact ih (i + 1) (elapsed + interval) hle (by omega)
      · rw [min_eq_right (le_of_lt hgt)]
        exact ih (i + 1) deadline (le_refl deadline) (by omega)

/-- C3: for a finite response sequence of n in-progress answers followed by a
terminal status, polling returns after exactly n times the poll interval
(when that fits the deadline); for the infinite in-progress sequence polling
halts with PollTimeoutError exactly at the configured deadline, not later. -/
theorem polling_terminates :
    (∀ (n : Nat) (term : ActionStatus) (interval deadline : Nat),
      term ≠ ActionStatus.inProgress → 0 < interval → n * interval ≤ deadline →
      pollAction (finiteStatuses n term) interval deadline =
        (terminalOutcome term, n * interval)) ∧
    (∀ (interval deadline : Nat), 0 < interval →
      pollAction (fun _ => ActionStatus.inProgress) interval deadline =
        (PollOutcome.pollTimeoutError, deadline)) := by
  constructor
  · intro n term interval deadline hterm hint hdl
    unfold pollAction
    have hfuel : n + 1 ≤ deadline / interval + 2 := by
      have h1 : n ≤ deadline / interval := (Nat.le_div_iff_mul_le hint).mpr hdl
      omega
    have hpre : ∀ j, j < n → finiteStatuses n term (0 + j) = ActionStatus.inProgress := by
      intro j hj
      unfold finiteStatuses
      simp [hj]
    have hterm0 : finiteStatuses n term (0 + n) = term := by
      unfold finiteStatuses
      simp
    have h2 := pollGo_finite (finiteStatuses n term) term interval deadline n
      (deadline / interval + 2) 0 0 hpre hterm0 hterm hfuel (by omega) hint
    simpa using h2
  · intro interval deadline hint
    unfold pollAction
    apply pollGo_always_inProgress
    · omega
    · have hdm := Nat.div_add_mod deadline interval
      have hmod : deadline % interval < interval := Nat.mod_lt deadline hint
      have hexp : (deadline / interval + 2) * interval =
          interval * (deadline / interval) + 2 * interval := by
        ring
      omega

/-- C3 witness: three in-progress answers at interval 2 finish at time 6; the
always-in-progress sequence with deadline 7 times out exactly at 7. -/
theorem polling_terminates_witness :
    (ActionStatus.succeeded ≠ ActionStatus.inProgress ∧ 0 < 2 ∧ 3 * 2 ≤ 10 ∧
      pollAction (finiteStatuses 3 ActionStatus.succeeded) 2 10 = (PollOutcome.success, 6)) ∧
    (0 < 2 ∧
      pollAction (fun _ => ActionStatus.inProgress) 2 7 = (PollOutcome.pollTimeoutError, 7)) :=
  ⟨⟨by decide, by decide, by decide,
    polling_terminates.1 3 ActionStatus.succeeded 2 10 (by decide) (by decide) (by decide)⟩,
   ⟨by decide, polling_terminates.2 2 7 (by decide)⟩⟩

/-- C7: with the skip-snapshot flag set, CreateSnapshot is never part of the
assembled step sequence and the build's final artifact carries an empty image
identifier. -/
theorem skip_snapshot_no_image (c : Config) (h : c.skipSnapshot = true) :
    StepKind.createSnapshot ∉ buildSteps c ∧ artifactImageID c = "" := by
  constructor
  · by_cases hr : c.rescueMode = "" <;> simp [buildSteps, h, hr]
  · unfold artifactImageID happyPathFinalState
    by_cases hr : c.rescueMode = "" <;>
      simp [buildSteps, h, hr, stepWrites, StateBag.get]

/-- C7 witness: the skip-snapshot sample configuration assembles no
CreateSnapshot step and produces an empty artifact image identifier. -/
theorem skip_snapshot_no_image_witness :
    cSkipSnapshot.skipSnapshot = true ∧
    (StepKind.createSnapshot ∉ buildSteps cSkipSnapshot ∧ artifactImageID cSkipSnapshot = "") :=
  ⟨rfl, skip_snapshot_no_image cSkipSnapshot rfl⟩
